import Mathlib

/-
  Verification of the settlement and consistency subsystem of the
  remnawave-tg-shop bot against its specification.  The embedded code:

  * the CryptoPay webhook settlement handler
    (src/bot/services/crypto_pay_service.py, `_invoice_paid_handler`);
  * the payout ledger (src/db/dal/payout_dal.py `create_payout` and
    src/bot/handlers/user/referral.py `process_requisites_input`);
  * the schema-migration runner (src/db/migrator.py
    `run_database_migrations`).

  Pure computations become Lean functions; the database session becomes an
  explicit state record; Python exceptions become `Except`/`Option`;
  Python integers are `Int` with `Int.fmod`/`Int.fdiv` for Python's
  floor-convention `%` and `//`.
-/

namespace RemnaShop

/-! ## Calendar arithmetic of the gift branch (crypto_pay_service.py lines 167-170) -/

/-- Gregorian leap-year test as used by Python's `datetime.date`. -/
def isLeapYear (y : Int) : Bool :=
  y.emod 4 == 0 && (y.emod 100 != 0 || y.emod 400 == 0)

/-- Day count of month `m` of year `y` in the proleptic Gregorian calendar of
    Python `datetime.date`. -/
def daysInMonth (y m : Int) : Int :=
  if m == 2 then (if isLeapYear y then 29 else 28)
  else if m == 4 || m == 6 || m == 9 || m == 11 then 30
  else 31

/-- The `day` field of `date(y, m, 1) - timedelta(days=1)`: the last day of the
    month preceding month `m` of year `y` (December 31 when `m = 1`). -/
def dayBeforeFirst (y m : Int) : Int :=
  if m == 1 then 31 else daysInMonth y (m - 1)

/-- `new_month = (today.month - 1 + months) % 12 + 1` (line 168); Python `%` on
    ints is floor mod, i.e. `Int.fmod`. -/
def new_month (todayMonth months : Int) : Int :=
  (todayMonth - 1 + months).fmod 12 + 1

/-- `new_year = today.year + (today.month - 1 + months) // 12` (line 169);
    Python `//` is floor division, i.e. `Int.fdiv`. -/
def new_year (todayYear todayMonth months : Int) : Int :=
  todayYear + (todayMonth - 1 + months).fdiv 12

/-- `last_day = (date(new_year + (new_month == 12), new_month % 12 + 1, 1)
    - timedelta(days=1)).day` (line 170); Python coerces the boolean
    `new_month == 12` to 1 or 0 when adding it to the year. -/
def last_day (todayYear todayMonth months : Int) : Int :=
  let nm := new_month todayMonth months
  let ny := new_year todayYear todayMonth months
  dayBeforeFirst (ny + (if nm == 12 then 1 else 0)) (nm.fmod 12 + 1)

/-- The calendar month reached by adding `n` months to month `m` of year `y`:
    the specification's target month for the gift bonus ("the calendar month
    reached by adding N months to the current date"). -/
def monthsAfter (y m n : Int) : Int × Int :=
  (y + (m - 1 + n) / 12, (m - 1 + n) % 12 + 1)

/-! ## Webhook payload parsing (crypto_pay_service.py lines 132-144) -/

/-- ASCII whitespace as Python's `int(str)` and `str.strip()` treat it
    (space, tab, newline, carriage return, vertical tab, form feed). -/
def isSpaceChar (c : Char) : Bool :=
  c == ' ' || c == '\t' || c == '\n' || c == '\r' ||
    c == Char.ofNat 11 || c == Char.ofNat 12

/-- Python `str.strip()`, restricted to ASCII whitespace. -/
def pyStrip (s : String) : String :=
  String.mk (((s.data.dropWhile isSpaceChar).reverse.dropWhile isSpaceChar).reverse)

def noDoubleUnderscore : List Char → Bool
  | [] => true
  | [_] => true
  | a :: b :: t => !(a == '_' && b == '_') && noDoubleUnderscore (b :: t)

/-- The digit part accepted by Python `int(str)`: one or more ASCII digits,
    single underscores allowed strictly between digits. -/
def digitGroupVal (l : List Char) : Option Nat :=
  if !l.isEmpty && l.all (fun c => c.isDigit || c == '_') &&
      (l.head?.getD '_').isDigit && (l.getLast?.getD '_').isDigit &&
      noDoubleUnderscore l then
    some ((l.filter (fun c => c.isDigit)).foldl (fun a c => a * 10 + (c.toNat - 48)) 0)
  else none

/-- Python `int(s)` on a string: optional surrounding whitespace, optional
    sign, then a digit group; `none` models `int` raising `ValueError`. -/
def pyInt (s : String) : Option Int :=
  match (pyStrip s).data with
  | '+' :: rest => (digitGroupVal rest).map (fun v => (v : Int))
  | '-' :: rest => (digitGroupVal rest).map (fun v => -(v : Int))
  | l => (digitGroupVal l).map (fun v => (v : Int))

/-- The decoded JSON object carried in `invoice.payload`: a string-keyed map
    of string values, as produced by `create_invoice` (lines 98-102; keys are
    unique).  `none` at the `Option RawPayload` level models a missing or
    JSON-unparseable payload, both of which make the handler return early. -/
structure RawPayload where
  fields : List (String × String)
deriving Repr, DecidableEq

def lookupField (p : RawPayload) (k : String) : Option String :=
  (p.fields.filter (fun kv => kv.1 == k)).head?.map (fun kv => kv.2)

structure ParsedMeta where
  user_id : Int
  subscription_months : Int
  payment_db_id : Int
deriving Repr, DecidableEq

/-- Lines 133-144: require a payload, then coerce `meta["user_id"]`,
    `meta["subscription_months"]`, `meta["payment_db_id"]` with `int`; a
    missing key or a failed coercion raises, and the handler drops the
    update. -/
def parsePayload (payload : Option RawPayload) : Option ParsedMeta :=
  match payload with
  | none => none
  | some raw => do
    let us ← lookupField raw "user_id"
    let uid ← pyInt us
    let ms ← lookupField raw "subscription_months"
    let months ← pyInt ms
    let ds ← lookupField raw "payment_db_id"
    let dbid ← pyInt ds
    pure ⟨uid, months, dbid⟩

/-! ## Settlement state and the webhook handler (lines 146-269) -/

/-- A `payments` row, restricted to the fields the handler reads or writes. -/
structure PaymentRecord where
  payment_id : Int
  user_id : Int
  status : String
  is_gift : Bool
  provider_payment_id : Option String
deriving Repr, DecidableEq

/-- A promo-code row as the gift branch creates it (lines 174-183). -/
structure PromoCode where
  code : String
  bonus_days : Int
  max_activations : Int
  current_activations : Int
  is_active : Bool
deriving Repr, DecidableEq

/-- The slice of database and outbound-effect state the settlement handler
    touches.  `activations` records the calls made to the external
    `SubscriptionService.activate_subscription` contract (user id, months);
    `userMessages` and `adminNotifications` count best-effort outbound
    messages. -/
structure SettleState where
  payments : List PaymentRecord
  promoCodes : List PromoCode
  activations : List (Int × Int)
  userMessages : Nat
  adminNotifications : Nat
deriving Repr, DecidableEq

/-- Modelled from the spec: `payment_dal.update_provider_payment_and_status`
    is not under `src/`; per its name and its two call sites
    (crypto_pay_service.py lines 112-118 and 157-163, which use it as a plain
    setter for a fresh invoice id and an arbitrary status string) it stores the
    provider's invoice id and the new status on the payment row. -/
def update_provider_payment_and_status
    (ps : List PaymentRecord) (paymentDbId : Int) (providerId status : String) :
    List PaymentRecord :=
  ps.map (fun p =>
    if p.payment_id == paymentDbId then
      { p with provider_payment_id := some providerId, status := status }
    else p)

/-- Modelled from the spec: `payment_dal.get_payment_by_db_id` is not under
    `src/`; it fetches the payment row with the given primary key. -/
def get_payment_by_db_id (ps : List PaymentRecord) (paymentDbId : Int) :
    Option PaymentRecord :=
  (ps.filter (fun p => p.payment_id == paymentDbId)).head?

/-- `alphabet = string.ascii_uppercase + string.digits` (line 171). -/
def alphabet : List Char := "ABCDEFGHIJKLMNOPQRSTUVWXYZ0123456789".data

/-- `code = ''.join(random.choice(alphabet) for _ in range(10))` (line 172),
    with the random draws supplied as an explicit stream `rand`. -/
def genCode (rand : Nat → Nat) : String :=
  String.mk ((List.range 10).map (fun i => alphabet.getD (rand i % 36) 'A'))

/-- `_invoice_paid_handler` (lines 132-269) as a state transformer over one
    webhook delivery.  `today` is `date.today()` as (year, month); `rand`
    feeds `random.choice`; `invoiceId` is `invoice.invoice_id`.  A parse
    failure returns before any session work; the `except` at lines 217-220
    rolls the session back, so the branch where the payment row is absent
    (`payment.is_gift` raising `AttributeError` on `None`) also leaves the
    state unchanged.  The handler checks no precondition on the current
    status of the payment row before writing `"succeeded"` and performing the
    business effect. -/
def invoice_paid_handler (rand : Nat → Nat) (payload : Option RawPayload)
    (invoiceId : String) (today : Int × Int) (s : SettleState) : SettleState :=
  match parsePayload payload with
  | none => s
  | some meta =>
    let ps := update_provider_payment_and_status s.payments meta.payment_db_id
      invoiceId "succeeded"
    match get_payment_by_db_id ps meta.payment_db_id with
    | none => s
    | some payment =>
      if payment.is_gift then
        let promo : PromoCode :=
          { code := genCode rand
            bonus_days := last_day today.1 today.2 meta.subscription_months
            max_activations := 1
            current_activations := 0
            is_active := true }
        { s with
            payments := ps
            promoCodes := s.promoCodes ++ [promo]
            userMessages := s.userMessages + 1
            adminNotifications := s.adminNotifications + 1 }
      else
        { s with
            payments := ps
            activations := s.activations ++ [(meta.user_id, meta.subscription_months)]
            userMessages := s.userMessages + 1
            adminNotifications := s.adminNotifications + 1 }

/-- The confirmed-invoice payload of the duplicate-delivery scenario: a paid
    gift invoice for user 42, 1 month, payment row 7. -/
def giftPayload : RawPayload :=
  ⟨[("user_id", "42"), ("subscription_months", "1"), ("payment_db_id", "7")]⟩

/-- Payload of spec §8: `payment_db_id` is not numeric-coercible. -/
def abcPayload : RawPayload :=
  ⟨[("user_id", "42"), ("subscription_months", "3"), ("payment_db_id", "abc")]⟩

/-- Initial settlement state: one pending gift payment, no effects yet. -/
def giftState : SettleState :=
  { payments := [{ payment_id := 7, user_id := 42, status := "pending_cryptopay",
                   is_gift := true, provider_payment_id := none }]
    promoCodes := []
    activations := []
    userMessages := 0
    adminNotifications := 0 }

/-! ## Payout ledger (db/dal/payout_dal.py, bot/handlers/user/referral.py) -/

/-- A row of the `payouts` table of migration 0006. -/
structure PayoutRow where
  payout_id : Nat
  user_id : Int
  price : Int
  requisites : String
  status : String
deriving Repr, DecidableEq

/-- The slice of database state the payout flow touches: the requesting
    user's `balance` column and the `payouts` table.  `nextSerial` is the
    PostgreSQL sequence backing the `payout_id SERIAL PRIMARY KEY` column
    created by migration 0006; it only ever grows. -/
structure PayoutDb where
  balance : Int
  payouts : List PayoutRow
  nextSerial : Nat
deriving Repr, DecidableEq

/-- The `payout_data` dict built at referral.py lines 236-241 (it carries no
    `payout_id`). -/
structure PayoutData where
  user_id : Int
  price : Int
  requisites : String
  status : String
deriving Repr, DecidableEq

/-- `payout_dal.get_payout_by_id` (lines 22-25): `scalar_one_or_none` over
    the rows with the given primary key. -/
def get_payout_by_id (db : PayoutDb) (pid : Nat) : Option PayoutRow :=
  (db.payouts.filter (fun r => r.payout_id == pid)).head?

/-- `payout_dal.create_payout` (lines 27-62): an insert with
    `on_conflict_do_nothing(index_elements=[Payout.payout_id])` and
    `RETURNING payout_id`.  The caller's `payout_data` carries no
    `payout_id`, so the database draws the next sequence value for it; the
    insert is dropped only when a row with that id already exists, in which
    case `RETURNING` yields no id and the function returns `(None, False)`;
    otherwise it re-reads the inserted row and returns it with
    `created = True`. -/
def create_payout (db : PayoutDb) (d : PayoutData) :
    (Option PayoutRow × Bool) × PayoutDb :=
  let pid := db.nextSerial
  if db.payouts.any (fun r => r.payout_id == pid) then
    ((none, false), { db with nextSerial := pid + 1 })
  else
    let row : PayoutRow :=
      { payout_id := pid, user_id := d.user_id, price := d.price,
        requisites := d.requisites, status := d.status }
    let db2 : PayoutDb :=
      { db with payouts := db.payouts ++ [row], nextSerial := pid + 1 }
    ((get_payout_by_id db2 pid, true), db2)

/-! ## Requisites validation (referral.py lines 25-30 and 197-211) -/

/-- `\w` of Python `re` (ASCII): letters, digits, underscore. -/
def isWordChar (c : Char) : Bool := c.isAlphanum || c == '_'

/-- Case-insensitive comparison of ASCII characters (`re.IGNORECASE`). -/
def ciEq (a b : Char) : Bool := a.toUpper == b.toUpper

/-- Strip a literal token case-insensitively; `none` when it does not match
    at the head. -/
def stripTokenCI : List Char → List Char → Option (List Char)
  | [], s => some s
  | _ :: _, [] => none
  | p :: ps, c :: cs => if ciEq p c then stripTokenCI ps cs else none

/-- One alternative of `SUSPICIOUS_SQL_KEYWORDS_REGEX` (referral.py lines
    25-28): a first literal token, optionally followed after `\s*` by a
    second literal token. -/
structure KwAlt where
  first : List Char
  second : Option (List Char)

/-- The alternatives of `SUSPICIOUS_SQL_KEYWORDS_REGEX`, in source order. -/
def kwAlts : List KwAlt :=
  [⟨"DROP".data, some "TABLE".data⟩,
   ⟨"DELETE".data, some "FROM".data⟩,
   ⟨"ALTER".data, some "TABLE".data⟩,
   ⟨"TRUNCATE".data, some "TABLE".data⟩,
   ⟨"UNION".data, some "SELECT".data⟩,
   ⟨";".data, some "SELECT".data⟩,
   ⟨";".data, some "INSERT".data⟩,
   ⟨";".data, some "UPDATE".data⟩,
   ⟨";".data, some "DELETE".data⟩,
   ⟨"xp_cmdshell".data, none⟩,
   ⟨"sysdatabases".data, none⟩,
   ⟨"sysobjects".data, none⟩,
   ⟨"INFORMATION_SCHEMA".data, none⟩]

/-- `\b` before the first matched character `f`, given the preceding
    character (`none` at string start): a word/non-word transition. -/
def startBoundary (prev : Option Char) (f : Char) : Bool :=
  match prev with
  | none => isWordChar f
  | some p => isWordChar p != isWordChar f

/-- `\b` after the last matched character, given the remaining suffix. -/
def endBoundaryAfter (lastChar : Char) (rest : List Char) : Bool :=
  match rest with
  | [] => isWordChar lastChar
  | c :: _ => isWordChar lastChar != isWordChar c

/-- Match one keyword alternative at the current position. -/
def matchAltAt (a : KwAlt) (prev : Option Char) (s : List Char) : Bool :=
  match s with
  | [] => false
  | f :: _ =>
    startBoundary prev f &&
      (match stripTokenCI a.first s with
       | none => false
       | some rest =>
         match a.second with
         | none => endBoundaryAfter ((a.first.getLast?).getD ' ') rest
         | some t2 =>
           match stripTokenCI t2 (rest.dropWhile isSpaceChar) with
           | none => false
           | some rest2 => endBoundaryAfter ((t2.getLast?).getD ' ') rest2)

/-- `SUSPICIOUS_SQL_KEYWORDS_REGEX.search`: try every position. -/
def kwSearch : Option Char → List Char → Bool
  | prev, [] => kwAlts.any fun a => matchAltAt a prev []
  | prev, c :: rest =>
    (kwAlts.any fun a => matchAltAt a prev (c :: rest)) || kwSearch (some c) rest

/-- One alternative of `SUSPICIOUS_CHARS_REGEX = (--|#\s|;|\*\/|\/\*)`
    (referral.py line 29) matched at the current position. -/
def charsAltAt (s : List Char) : Bool :=
  match s with
  | '-' :: '-' :: _ => true
  | '#' :: c :: _ => isSpaceChar c
  | ';' :: _ => true
  | '*' :: '/' :: _ => true
  | '/' :: '*' :: _ => true
  | _ => false

/-- `SUSPICIOUS_CHARS_REGEX.search`: try every position. -/
def charsSearch : List Char → Bool
  | [] => false
  | c :: rest => charsAltAt (c :: rest) || charsSearch rest

def MAX_PROMO_CODE_INPUT_LENGTH : Nat := 100

/-- Lines 197-211 of referral.py: `code_input = message.text.strip()`; the
    input is flagged suspicious when empty, longer than 100 characters, or
    matched by either regex. -/
def is_suspicious (text : String) : Bool :=
  let ci := pyStrip text
  ci.isEmpty ||
    (decide (MAX_PROMO_CODE_INPUT_LENGTH < ci.length)
      || kwSearch none ci.data || charsSearch ci.data)

/-- The user-visible outcome of `process_requisites_input`: the failure reply
    of the suspicious branch, the success reply quoting the payout id and
    amount, or an escaped exception (no reply). -/
inductive ReqOutcome where
  | failMessage
  | successMessage (payoutId : Nat) (price : Int)
  | crashed
deriving Repr, DecidableEq

/-- The non-suspicious branch of `process_requisites_input` (referral.py
    lines 230-256): read `db_user.balance`, zero it with `update_user`,
    insert the payout with `create_payout`, then dereference
    `new_payout.payout_id` unconditionally (lines 249 and 256) — an
    `AttributeError` escapes when the returned payout is `None`. -/
def payoutBranch (userId : Int) (reqs : String) (db : PayoutDb) :
    Except Unit (PayoutDb × PayoutRow) :=
  let balance := db.balance
  let db1 : PayoutDb := { db with balance := 0 }
  let d : PayoutData :=
    { user_id := userId, price := balance, requisites := reqs, status := "created" }
  match create_payout db1 d with
  | ((some row, _), db2) => .ok (db2, row)
  | ((none, _), _) => .error ()

/-- `process_requisites_input` (referral.py lines 176-272) over one user's
    database slice.  Modelled from the spec: the enclosing session middleware
    is not under `src/`; per §4.3 and §7 it commits the session when the
    handler returns and rolls every mutation back when an exception escapes,
    and the payout notification is fire-and-forget ("no bearing on ledger
    consistency"), so it does not fail the transaction.  `commitOk = false`
    models a transaction failure at commit. -/
def process_requisites_input (text : String) (userId : Int) (commitOk : Bool)
    (db : PayoutDb) : PayoutDb × ReqOutcome :=
  if is_suspicious text then (db, .failMessage)
  else
    match payoutBranch userId (pyStrip text) db with
    | .error _ => (db, .crashed)
    | .ok (db2, row) =>
      if commitOk then (db2, .successMessage row.payout_id row.price)
      else (db, .crashed)

/-! ## Two concurrent payout invocations (claim C2), at the suspension-point
    granularity of §5: every database call is atomic, interleaving may happen
    between them. -/

inductive PayoutStep where
  | readBal
  | zeroBal
  | insertRow
deriving Repr, DecidableEq

/-- Local state of one in-flight payout invocation: its Python local
    `balance` and its remaining database calls. -/
structure OpCtx where
  userId : Int
  reqs : String
  bal : Int
  todo : List PayoutStep
  result : Option (Option PayoutRow × Bool)
deriving Repr, DecidableEq

/-- One atomic database call of the non-suspicious payout path. -/
def execStep (st : PayoutStep) (c : OpCtx) (db : PayoutDb) : OpCtx × PayoutDb :=
  match st with
  | .readBal => ({ c with bal := db.balance }, db)
  | .zeroBal => (c, { db with balance := 0 })
  | .insertRow =>
    let d : PayoutData :=
      { user_id := c.userId, price := c.bal, requisites := c.reqs, status := "created" }
    match create_payout db d with
    | (res, db2) => ({ c with result := some res }, db2)

/-- The database calls of the payout path in program order (referral.py
    lines 231-243). -/
def payoutProg : List PayoutStep := [.readBal, .zeroBal, .insertRow]

/-- Run two concurrent payout invocations under a schedule: `true` hands the
    next database call to invocation A, `false` to invocation B. -/
def runSchedule : List Bool → OpCtx → OpCtx → PayoutDb → OpCtx × OpCtx × PayoutDb
  | [], a, b, db => (a, b, db)
  | true :: rest, a, b, db =>
    match a.todo with
    | [] => runSchedule rest a b db
    | st :: more =>
      match execStep st { a with todo := more } db with
      | (a2, db2) => runSchedule rest a2 b db2
  | false :: rest, a, b, db =>
    match b.todo with
    | [] => runSchedule rest a b db
    | st :: more =>
      match execStep st { b with todo := more } db with
      | (b2, db2) => runSchedule rest a b2 db2

/-- A fresh payout invocation for `userId` with requisites `reqs`. -/
def mkOp (userId : Int) (reqs : String) : OpCtx :=
  { userId := userId, reqs := reqs, bal := 0, todo := payoutProg, result := none }

/-- A user at the payout threshold: balance 1000, no payouts yet, sequence
    at 1. -/
def raceDb : PayoutDb := { balance := 1000, payouts := [], nextSerial := 1 }

/-- A database whose payouts table already holds a row with the next
    sequence value, the only situation in which the conflict clause of
    `create_payout` fires. -/
def conflictDb : PayoutDb :=
  { balance := 0,
    payouts := [{ payout_id := 1, user_id := 42, price := 5,
                  requisites := "x", status := "created" }],
    nextSerial := 1 }

/-! ## Schema migrations (db/migrator.py) -/

/-- A structural change issued by a migration. -/
inductive Ddl where
  | addColumn (table col : String)
  | createTable (name : String)
  | createIndex (name : String)
deriving Repr, DecidableEq

/-- The schema state the migrations inspect and mutate. -/
structure Schema where
  tables : List String
  columns : List (String × String)
  indexes : List String
deriving Repr, DecidableEq

/-- The inspector's column check: `col["name"] in columns` of a table. -/
def hasColumn (s : Schema) (t c : String) : Bool :=
  s.columns.any (fun tc => tc.1 == t && tc.2 == c)

def execDdl (s : Schema) (d : Ddl) : Schema :=
  match d with
  | .addColumn t c => { s with columns := s.columns ++ [(t, c)] }
  | .createTable n => { s with tables := s.tables ++ [n] }
  | .createIndex n => { s with indexes := s.indexes ++ [n] }

def execDdls (s : Schema) (ds : List Ddl) : Schema := ds.foldl execDdl s

/-- `_migration_0001_add_channel_subscription_fields` (migrator.py lines
    29-48): snapshot the `users` columns, collect the missing ones, execute. -/
def _migration_0001_add_channel_subscription_fields (s : Schema) :
    Schema × List Ddl :=
  let stmts : List Ddl :=
    (if hasColumn s "users" "channel_subscription_verified" then []
     else [.addColumn "users" "channel_subscription_verified"]) ++
    (if hasColumn s "users" "channel_subscription_checked_at" then []
     else [.addColumn "users" "channel_subscription_checked_at"]) ++
    (if hasColumn s "users" "channel_subscription_verified_for" then []
     else [.addColumn "users" "channel_subscription_verified_for"])
  (execDdls s stmts, stmts)

/-- `_migration_0002_add_user_balance` (lines 50-57). -/
def _migration_0002_add_user_balance (s : Schema) : Schema × List Ddl :=
  if hasColumn s "users" "balance" then (s, [])
  else (execDdl s (.addColumn "users" "balance"), [.addColumn "users" "balance"])

/-- `_migration_0003_add_user_total_earned` (lines 59-66). -/
def _migration_0003_add_user_total_earned (s : Schema) : Schema × List Ddl :=
  if hasColumn s "users" "total_earned" then (s, [])
  else (execDdl s (.addColumn "users" "total_earned"),
    [.addColumn "users" "total_earned"])

/-- `_migration_0004_add_user_referral_reward_applied` (lines 68-75); note
    the source inspects and alters the `payments` table. -/
def _migration_0004_add_user_referral_reward_applied (s : Schema) :
    Schema × List Ddl :=
  if hasColumn s "payments" "referral_reward_applied" then (s, [])
  else (execDdl s (.addColumn "payments" "referral_reward_applied"),
    [.addColumn "payments" "referral_reward_applied"])

/-- `_migration_0005_add_subscription_resend_disable_fields` (lines 77-95). -/
def _migration_0005_add_subscription_resend_disable_fields (s : Schema) :
    Schema × List Ddl :=
  let stmts : List Ddl :=
    (if hasColumn s "subscriptions" "resend_disable_message_date" then []
     else [.addColumn "subscriptions" "resend_disable_message_date"]) ++
    (if hasColumn s "subscriptions" "resend_disable_message_step" then []
     else [.addColumn "subscriptions" "resend_disable_message_step"])
  (execDdls s stmts, stmts)

/-- `_migration_0006_create_payouts_table` (lines 97-123). -/
def _migration_0006_create_payouts_table (s : Schema) : Schema × List Ddl :=
  if s.tables.any (fun t => t == "payouts") then (s, [])
  else
    let stmts : List Ddl :=
      [.createTable "payouts",
       .createIndex "idx_payouts_user_id",
       .createIndex "idx_payouts_status"]
    (execDdls s stmts, stmts)

/-- A migration as `migrator.py` declares it.  The upgrade action runs
    against the live connection and may fail with a database error; a
    failure carries the partially mutated schema, which the runner's
    savepoint discards. -/
structure Migration where
  id : String
  description : String
  upgrade : Schema → Except (String × Schema) (Schema × List Ddl)

/-- Wrap a total upgrade action. -/
def liftUp (f : Schema → Schema × List Ddl) :
    Schema → Except (String × Schema) (Schema × List Ddl) :=
  fun s => .ok (f s)

/-- The declared migration list `MIGRATIONS` (migrator.py lines 125-156), in
    declared order. -/
def MIGRATIONS : List Migration :=
  [{ id := "0001_add_channel_subscription_fields",
     description := "Add columns to track required channel subscription verification",
     upgrade := liftUp _migration_0001_add_channel_subscription_fields },
   { id := "0002_add_user_balance",
     description := "Add balance column to users table",
     upgrade := liftUp _migration_0002_add_user_balance },
   { id := "0003_add_user_total_earned",
     description := "Add total_earned column to users table",
     upgrade := liftUp _migration_0003_add_user_total_earned },
   { id := "0004_add_user_referral_reward_applied",
     description := "Add referral_reward_applied column to users table",
     upgrade := liftUp _migration_0004_add_user_referral_reward_applied },
   { id := "0005_add_subscription_resend_disable_fields",
     description := "Add resend disable notification fields to subscriptions table",
     upgrade := liftUp _migration_0005_add_subscription_resend_disable_fields },
   { id := "0006_create_payouts_table",
     description := "Create payouts table",
     upgrade := liftUp _migration_0006_create_payouts_table }]

/-- The persistent state the runner touches: the schema, the
    `schema_migrations` ledger rows in insertion order, and whether the
    ledger table exists. -/
structure MigDb where
  schema : Schema
  ledger : List String
  ledgerTableExists : Bool

/-- `_ensure_migrations_table` (lines 16-26): `CREATE TABLE IF NOT EXISTS`. -/
def _ensure_migrations_table (db : MigDb) : MigDb :=
  { db with ledgerTableExists := true }

/-- The loop of `run_database_migrations` (lines 172-197).  `applied` is the
    already-applied set, read once before the loop and never updated inside
    it.  Each pending migration runs inside a savepoint together with its
    ledger insert; on failure the savepoint is discarded (the error keeps the
    state reached before the failing migration) and the exception propagates,
    aborting the whole run.  The second component accumulates the structural
    changes executed during this run. -/
def migLoop (applied : List String) :
    List Migration → MigDb → List Ddl →
      Except (String × MigDb × List Ddl) (MigDb × List Ddl)
  | [], db, acc => .ok (db, acc)
  | m :: rest, db, acc =>
    if applied.contains m.id then migLoop applied rest db acc
    else
      match m.upgrade db.schema with
      | .error e => .error (e.1, db, acc)
      | .ok (s2, ddl) =>
        migLoop applied rest
          { db with schema := s2, ledger := db.ledger ++ [m.id] } (acc ++ ddl)

/-- `run_database_migrations` (lines 159-197): ensure the ledger table, read
    the applied set, run the loop over the declared list in declared order. -/
def run_database_migrations (ms : List Migration) (db : MigDb) :
    Except (String × MigDb × List Ddl) (MigDb × List Ddl) :=
  let db1 := _ensure_migrations_table db
  migLoop db1.ledger ms db1 []

/-- A bare schema holding only the three tables the migrations alter. -/
def bareSchema : Schema :=
  { tables := ["users", "payments", "subscriptions"], columns := [], indexes := [] }

/-- A database on which every declared migration is already applied. -/
def appliedDb : MigDb :=
  { schema := bareSchema
    ledger := ["0001_add_channel_subscription_fields", "0002_add_user_balance",
               "0003_add_user_total_earned", "0004_add_user_referral_reward_applied",
               "0005_add_subscription_resend_disable_fields",
               "0006_create_payouts_table"]
    ledgerTableExists := true }

/-- A fresh database: ledger empty. -/
def freshDb : MigDb :=
  { schema := bareSchema, ledger := [], ledgerTableExists := true }

/-- A migration whose upgrade fails after a partial structural change; the
    savepoint discards the partial change. -/
def boomMigration : Migration :=
  { id := "0099_boom"
    description := "failing migration"
    upgrade := fun s => .error ("boom", execDdl s (.addColumn "users" "junk")) }

/-- The state after running only migration 0001 on `freshDb`. -/
def db1After0001 : MigDb :=
  { schema := { tables := ["users", "payments", "subscriptions"]
                columns := [("users", "channel_subscription_verified"),
                            ("users", "channel_subscription_checked_at"),
                            ("users", "channel_subscription_verified_for")]
                indexes := [] }
    ledger := ["0001_add_channel_subscription_fields"]
    ledgerTableExists := true }

/-- The structural changes migration 0001 performs on `freshDb`. -/
def ddl0001 : List Ddl :=
  [.addColumn "users" "channel_subscription_verified",
   .addColumn "users" "channel_subscription_checked_at",
   .addColumn "users" "channel_subscription_verified_for"]

/-- C7: for every purchase date (year `y`, calendar month `m`) and every month
count `n ≥ 1`, the gift bonus-days value `last_day` computed by the handler
equals the day count of the calendar month reached by adding `n` months to the
current date, carrying year rollover and variable month length; in particular a
1-month gift purchased on 2024-01-15 yields 29 bonus days and the same purchase
on 2023-01-15 yields 28. -/
theorem C7_bonus_days_is_target_month_length (y m n : Int)
    (hm1 : 1 ≤ m) (hm2 : m ≤ 12) (hn : 1 ≤ n) :
    last_day y m n = daysInMonth (monthsAfter y m n).1 (monthsAfter y m n).2
      ∧ last_day 2024 1 1 = 29 ∧ last_day 2023 1 1 = 28 := by
  refine ⟨?_, by decide, by decide⟩
  simp only [last_day, new_month, new_year, monthsAfter,
    Int.fmod_eq_emod _ (by norm_num : (0:Int) ≤ 12),
    Int.fdiv_eq_ediv _ (by norm_num : (0:Int) ≤ 12)]
  have hj0 : 0 ≤ (m - 1 + n) % 12 := Int.emod_nonneg _ (by norm_num)
  have hj1 : (m - 1 + n) % 12 < 12 := Int.emod_lt_of_pos _ (by norm_num)
  generalize (m - 1 + n) % 12 = j at hj0 hj1
  generalize (m - 1 + n) / 12 = q
  interval_cases j <;>
    simp [dayBeforeFirst, daysInMonth,
      Int.fmod_eq_emod _ (by norm_num : (0:Int) ≤ 12)]

/-- Witness for C7 at the concrete purchase date 2024-01-15 with `n = 1`. -/
theorem C7_bonus_days_witness :
    last_day 2024 1 1 = daysInMonth (monthsAfter 2024 1 1).1 (monthsAfter 2024 1 1).2
      ∧ last_day 2024 1 1 = 29 ∧ last_day 2023 1 1 = 28 :=
  C7_bonus_days_is_target_month_length 2024 1 1 (by decide) (by decide) (by decide)

/-- C1: the idempotency claim fails on the code.  The handler performs no
status check before settling (lines 157-216), so redelivering the same
confirmed gift invoice a second time issues a second gift code: after two
deliveries of one confirmed invoice the state holds two promo codes, where the
claim allows exactly one business effect. -/
theorem C1_redelivery_repeats_business_effect :
    (invoice_paid_handler (fun _ => 0) (some giftPayload) "inv1" (2024, 1)
        (invoice_paid_handler (fun _ => 0) (some giftPayload) "inv1" (2024, 1)
          giftState)).promoCodes.length = 2
      ∧ (invoice_paid_handler (fun _ => 0) (some giftPayload) "inv1" (2024, 1)
          giftState).promoCodes.length = 1 := by
  constructor <;> rfl

/-- C6: every webhook update whose payload is missing, or whose fields
`user_id`, `subscription_months` or `payment_db_id` are absent or not
numeric-coercible, is dropped with zero record mutation — no payment status
change, no gift code, no activation, no message; in particular the §8 payload
with `payment_db_id = "abc"` fails parsing. -/
theorem C6_malformed_payload_dropped (rand : Nat → Nat) (invoiceId : String)
    (today : Int × Int) (payload : Option RawPayload) (s : SettleState)
    (h : parsePayload payload = none) :
    invoice_paid_handler rand payload invoiceId today s = s
      ∧ parsePayload (some abcPayload) = none := by
  refine ⟨?_, by rfl⟩
  simp [invoice_paid_handler, h]

/-- Witness for C6 at the concrete §8 payload with a non-numeric id. -/
theorem C6_malformed_payload_witness :
    invoice_paid_handler (fun _ => 0) (some abcPayload) "inv1" (2024, 1) giftState
        = giftState
      ∧ parsePayload (some abcPayload) = none :=
  C6_malformed_payload_dropped (fun _ => 0) "inv1" (2024, 1) (some abcPayload)
    giftState (by rfl)

theorem alphabet_getD_mem : ∀ k, k < 36 → alphabet.getD k 'A' ∈ alphabet := by
  decide

theorem genCode_length (rand : Nat → Nat) : (genCode rand).length = 10 := by
  simp [genCode, String.length]

theorem genCode_chars (rand : Nat → Nat) :
    ∀ c ∈ (genCode rand).data, c ∈ alphabet := by
  intro c hc
  simp only [genCode, List.mem_map, List.mem_range] at hc
  obtain ⟨i, _, rfl⟩ := hc
  exact alphabet_getD_mem _ (Nat.mod_lt _ (by norm_num))

/-- C8: on the gift branch (payment flagged `is_gift`) settlement issues
exactly one gift code — a 10-character code over the uppercase-letters-and-
digits alphabet with max activations 1 — and performs no activation of the
payer's own subscription. -/
theorem C8_gift_branch_issues_one_code (rand : Nat → Nat)
    (payload : Option RawPayload) (invoiceId : String) (today : Int × Int)
    (s : SettleState) (meta : ParsedMeta) (payment : PaymentRecord)
    (hparse : parsePayload payload = some meta)
    (hpay : get_payment_by_db_id
        (update_provider_payment_and_status s.payments meta.payment_db_id
          invoiceId "succeeded") meta.payment_db_id = some payment)
    (hgift : payment.is_gift = true) :
    (∃ promo : PromoCode,
        (invoice_paid_handler rand payload invoiceId today s).promoCodes
            = s.promoCodes ++ [promo]
          ∧ promo.max_activations = 1
          ∧ promo.code.length = 10
          ∧ ∀ c ∈ promo.code.data, c ∈ alphabet)
      ∧ (invoice_paid_handler rand payload invoiceId today s).activations
          = s.activations := by
  have hred : invoice_paid_handler rand payload invoiceId today s =
      { s with
          payments := update_provider_payment_and_status s.payments
            meta.payment_db_id invoiceId "succeeded"
          promoCodes := s.promoCodes ++
            [{ code := genCode rand
               bonus_days := last_day today.1 today.2 meta.subscription_months
               max_activations := 1
               current_activations := 0
               is_active := true }]
          userMessages := s.userMessages + 1
          adminNotifications := s.adminNotifications + 1 } := by
    simp [invoice_paid_handler, hparse, hpay, hgift]
  rw [hred]
  exact ⟨⟨_, rfl, rfl, genCode_length rand, genCode_chars rand⟩, rfl⟩

/-- Witness for C8 at the concrete pending gift payment of `giftState`. -/
theorem C8_gift_branch_witness :
    (∃ promo : PromoCode,
        (invoice_paid_handler (fun _ => 0) (some giftPayload) "inv1" (2024, 1)
            giftState).promoCodes = giftState.promoCodes ++ [promo]
          ∧ promo.max_activations = 1
          ∧ promo.code.length = 10
          ∧ ∀ c ∈ promo.code.data, c ∈ alphabet)
      ∧ (invoice_paid_handler (fun _ => 0) (some giftPayload) "inv1" (2024, 1)
          giftState).activations = giftState.activations :=
  C8_gift_branch_issues_one_code (fun _ => 0) (some giftPayload) "inv1" (2024, 1)
    giftState ⟨42, 1, 7⟩
    ⟨7, 42, "succeeded", true, some "inv1"⟩ (by rfl) (by rfl) rfl

/-! ## Payout lemmas -/

theorem create_payout_no_conflict (db : PayoutDb) (d : PayoutData)
    (hc : db.payouts.any (fun r => r.payout_id == db.nextSerial) = false) :
    create_payout db d =
      ((some { payout_id := db.nextSerial, user_id := d.user_id,
               price := d.price, requisites := d.requisites, status := d.status },
        true),
       { db with
           payouts := db.payouts ++
             [{ payout_id := db.nextSerial, user_id := d.user_id,
                price := d.price, requisites := d.requisites,
                status := d.status }],
           nextSerial := db.nextSerial + 1 }) := by
  have hfil : db.payouts.filter (fun r => r.payout_id == db.nextSerial) = [] :=
    List.filter_eq_nil_iff.mpr (by
      intro a ha
      simpa using List.any_eq_false.mp hc a ha)
  simp [create_payout, get_payout_by_id, hc, hfil]

theorem payoutBranch_ok (userId : Int) (reqs : String) (db : PayoutDb)
    (hc : db.payouts.any (fun r => r.payout_id == db.nextSerial) = false) :
    payoutBranch userId reqs db =
      .ok ({ balance := 0,
             payouts := db.payouts ++
               [{ payout_id := db.nextSerial, user_id := userId,
                  price := db.balance, requisites := reqs, status := "created" }],
             nextSerial := db.nextSerial + 1 },
           { payout_id := db.nextSerial, user_id := userId,
             price := db.balance, requisites := reqs, status := "created" }) := by
  have hz : ({ db with balance := 0 } : PayoutDb).payouts.any
      (fun r => r.payout_id == ({ db with balance := 0 } : PayoutDb).nextSerial)
        = false := hc
  have h1 := create_payout_no_conflict { db with balance := 0 }
    { user_id := userId, price := db.balance, requisites := reqs,
      status := "created" } hz
  simp only [payoutBranch]
  rw [h1]

theorem payoutBranch_conflict (userId : Int) (reqs : String) (db : PayoutDb)
    (hc : db.payouts.any (fun r => r.payout_id == db.nextSerial) = true) :
    payoutBranch userId reqs db = .error () := by
  simp [payoutBranch, create_payout, hc]

/-- C2: the claim fails on the code.  `create_payout`'s conflict target is
the serial primary key, which never collides for payout data carrying no id,
so under the schedule where both invocations read the balance before either
zeroes it, two PayoutRequest rows are inserted, each capturing the full
balance 1000, and both invocations observe `created = True`; the claim
requires exactly one row. -/
theorem C2_concurrent_payouts_insert_two_rows :
    ((runSchedule [true, false, true, true, false, false]
        (mkOp 42 "card 1234") (mkOp 42 "card 1234") raceDb).2.2.payouts.map
          (fun r => r.price) = [1000, 1000])
      ∧ (runSchedule [true, false, true, true, false, false]
          (mkOp 42 "card 1234") (mkOp 42 "card 1234") raceDb).2.2.payouts.length
            = 2
      ∧ (runSchedule [true, false, true, true, false, false]
          (mkOp 42 "card 1234") (mkOp 42 "card 1234") raceDb).2.2.balance = 0 :=
  ⟨rfl, rfl, rfl⟩

/-- C3: the payout operation reads the balance, zeroes it and inserts the
payout row capturing the pre-zero amount all-or-nothing: either the database
slice is exactly as before and no success is reported, or the balance is
zero and exactly one new payout row exists whose price is the pre-zero
balance. -/
theorem C3_payout_transaction_all_or_nothing (text : String) (userId : Int)
    (commitOk : Bool) (db : PayoutDb) (hok : is_suspicious text = false) :
    ((process_requisites_input text userId commitOk db).1 = db
        ∧ ∀ pid price, (process_requisites_input text userId commitOk db).2
            ≠ ReqOutcome.successMessage pid price)
      ∨ (∃ row : PayoutRow,
          (process_requisites_input text userId commitOk db).1.balance = 0
            ∧ (process_requisites_input text userId commitOk db).1.payouts
                = db.payouts ++ [row]
            ∧ row.price = db.balance
            ∧ row.user_id = userId
            ∧ row.status = "created"
            ∧ (process_requisites_input text userId commitOk db).2
                = ReqOutcome.successMessage row.payout_id row.price) := by
  cases hc : db.payouts.any (fun r => r.payout_id == db.nextSerial) with
  | true =>
    left
    simp [process_requisites_input, hok, payoutBranch_conflict userId (pyStrip text) db hc]
  | false =>
    cases commitOk with
    | true =>
      right
      refine ⟨{ payout_id := db.nextSerial, user_id := userId,
                price := db.balance, requisites := pyStrip text,
                status := "created" }, ?_, ?_, rfl, rfl, rfl, ?_⟩ <;>
        simp [process_requisites_input, hok,
          payoutBranch_ok userId (pyStrip text) db hc]
    | false =>
      left
      simp [process_requisites_input, hok,
        payoutBranch_ok userId (pyStrip text) db hc]

/-- Witness for C3 at the threshold balance 1000 and a committing run. -/
theorem C3_payout_transaction_witness :
    ((process_requisites_input "card 1234" 42 true raceDb).1 = raceDb
        ∧ ∀ pid price, (process_requisites_input "card 1234" 42 true raceDb).2
            ≠ ReqOutcome.successMessage pid price)
      ∨ (∃ row : PayoutRow,
          (process_requisites_input "card 1234" 42 true raceDb).1.balance = 0
            ∧ (process_requisites_input "card 1234" 42 true raceDb).1.payouts
                = raceDb.payouts ++ [row]
            ∧ row.price = raceDb.balance
            ∧ row.user_id = 42
            ∧ row.status = "created"
            ∧ (process_requisites_input "card 1234" 42 true raceDb).2
                = ReqOutcome.successMessage row.payout_id row.price) :=
  C3_payout_transaction_all_or_nothing "card 1234" 42 true raceDb (by rfl)

/-- C9: `create_payout` returns `(None, False)` exactly when the
conflict-aware insert reports no new row (the RETURNING clause yields no id
because a row with the drawn serial already exists), and otherwise a
non-None payout together with `created = True`; a caller that dereferences
the returned payout unchecked — as the requisites handler does — crashes in
the None case. -/
theorem C9_create_payout_contract (db : PayoutDb) (d : PayoutData) :
    (db.payouts.any (fun r => r.payout_id == db.nextSerial) = true →
        (create_payout db d).1 = (none, false))
      ∧ (db.payouts.any (fun r => r.payout_id == db.nextSerial) = false →
        ∃ row : PayoutRow, (create_payout db d).1 = (some row, true))
      ∧ (db.payouts.any (fun r => r.payout_id == db.nextSerial) = true →
        ∀ userId reqs, payoutBranch userId reqs db = .error ()) := by
  refine ⟨?_, ?_, ?_⟩
  · intro hc
    simp [create_payout, hc]
  · intro hc
    exact ⟨_, by rw [create_payout_no_conflict db d hc]⟩
  · intro hc userId reqs
    exact payoutBranch_conflict userId reqs db hc

/-- Witness for C9: the conflict case on `conflictDb`, the create case on
`raceDb`, and the crash of the unchecked caller. -/
theorem C9_create_payout_witness :
    (create_payout conflictDb ⟨42, 5, "x", "created"⟩).1 = (none, false)
      ∧ (∃ row : PayoutRow,
          (create_payout raceDb ⟨42, 1000, "card", "created"⟩).1 = (some row, true))
      ∧ payoutBranch 42 "x" conflictDb = .error () :=
  ⟨(C9_create_payout_contract conflictDb ⟨42, 5, "x", "created"⟩).1 rfl,
   (C9_create_payout_contract raceDb ⟨42, 1000, "card", "created"⟩).2.1 rfl,
   (C9_create_payout_contract conflictDb ⟨42, 5, "x", "created"⟩).2.2 rfl 42 "x"⟩

/-- C10: every requisites input that is empty after stripping, longer than
100 characters, or matched by the suspicious SQL-keyword or
suspicious-character patterns leads to no persistent mutation — the balance
is untouched and no payout row is inserted — and the user gets the failure
message. -/
theorem C10_suspicious_input_no_mutation (text : String) (userId : Int)
    (commitOk : Bool) (db : PayoutDb)
    (h : pyStrip text = "" ∨ MAX_PROMO_CODE_INPUT_LENGTH < (pyStrip text).length
        ∨ kwSearch none (pyStrip text).data = true
        ∨ charsSearch (pyStrip text).data = true) :
    process_requisites_input text userId commitOk db = (db, .failMessage) := by
  have hs : is_suspicious text = true := by
    unfold is_suspicious
    rcases h with h | h | h | h
    · simp [h]
      exact Or.inl rfl
    · simp [h]
    · simp [h]
    · simp [h]
  simp [process_requisites_input, hs]

/-- Witness for C10 at the concrete input "DROP TABLE users". -/
theorem C10_suspicious_input_witness :
    process_requisites_input "DROP TABLE users" 42 true raceDb
      = (raceDb, .failMessage) :=
  C10_suspicious_input_no_mutation "DROP TABLE users" 42 true raceDb
    (Or.inr (Or.inr (Or.inl (by decide))))

/-! ## Migration lemmas -/

theorem contains_true_iff (l : List String) (a : String) :
    l.contains a = true ↔ a ∈ l := by
  simp [List.contains, List.elem_iff]

theorem migLoop_ok_spec (ms : List Migration) : ∀ (applied : List String)
    (db : MigDb) (acc : List Ddl) (db2 : MigDb) (acc2 : List Ddl),
    migLoop applied ms db acc = .ok (db2, acc2) →
    ∃ ext, db2.ledger = db.ledger ++ ext
      ∧ List.Sublist ext (ms.map Migration.id)
      ∧ db2.ledgerTableExists = db.ledgerTableExists
      ∧ ∀ mm ∈ ms, mm.id ∈ applied ∨ mm.id ∈ db2.ledger := by
  induction ms with
  | nil =>
    intro applied db acc db2 acc2 h
    simp only [migLoop, Except.ok.injEq, Prod.mk.injEq] at h
    obtain ⟨h1, _⟩ := h
    subst h1
    exact ⟨[], by simp, List.nil_sublist _, rfl, by simp⟩
  | cons m rest ih =>
    intro applied db acc db2 acc2 h
    simp only [migLoop] at h
    cases hc : applied.contains m.id with
    | true =>
      rw [hc, if_pos rfl] at h
      obtain ⟨ext, hl, hs, hlt, hmem⟩ := ih applied db acc db2 acc2 h
      refine ⟨ext, hl, hs.cons _, hlt, ?_⟩
      intro mm hmm
      rcases List.mem_cons.mp hmm with rfl | hmm2
      · exact Or.inl ((contains_true_iff _ _).mp hc)
      · exact hmem mm hmm2
    | false =>
      rw [hc] at h
      simp only [Bool.false_eq_true, if_false] at h
      cases hu : m.upgrade db.schema with
      | error e => rw [hu] at h; exact absurd h (by simp)
      | ok pr =>
        obtain ⟨s2, ddl⟩ := pr
        rw [hu] at h
        obtain ⟨ext, hl, hs, hlt, hmem⟩ := ih applied _ _ db2 acc2 h
        refine ⟨m.id :: ext, ?_, hs.cons₂ _, hlt, ?_⟩
        · rw [hl, List.append_assoc]
          rfl
        · intro mm hmm
          rcases List.mem_cons.mp hmm with rfl | hmm2
          · refine Or.inr ?_
            rw [hl]
            simp
          · exact hmem mm hmm2

theorem migLoop_skip_all (ms : List Migration) : ∀ (applied : List String)
    (db : MigDb) (acc : List Ddl), (∀ mm ∈ ms, mm.id ∈ applied) →
    migLoop applied ms db acc = .ok (db, acc) := by
  induction ms with
  | nil => intro applied db acc _; rfl
  | cons m rest ih =>
    intro applied db acc h
    have hc : applied.contains m.id = true :=
      (contains_true_iff _ _).mpr (h m (List.mem_cons_self m rest))
    simp only [migLoop, hc, if_pos]
    exact ih applied db acc (fun mm hmm => h mm (List.mem_cons_of_mem _ hmm))

theorem migLoop_append (xs ys : List Migration) : ∀ (applied : List String)
    (db : MigDb) (acc : List Ddl),
    migLoop applied (xs ++ ys) db acc =
      (match migLoop applied xs db acc with
       | .ok pr => migLoop applied ys pr.1 pr.2
       | .error err => .error err) := by
  induction xs with
  | nil => intro applied db acc; rfl
  | cons m rest ih =>
    intro applied db acc
    cases hc : applied.contains m.id with
    | true =>
      simp only [List.cons_append, migLoop, hc, if_pos]
      exact ih applied db acc
    | false =>
      simp only [List.cons_append, migLoop, hc, Bool.false_eq_true, if_false]
      cases hu : m.upgrade db.schema with
      | error e => rfl
      | ok pr => exact ih applied _ _

/-- C4: the migration runner iterates the declared `MIGRATIONS` list in
declared order — newly recorded ledger ids form an order-preserving
subsequence of the declared ids — skips every migration whose id is already
in the ledger (a skipped migration is a no-op of the loop), and is
idempotent: a second consecutive run after a successful one applies zero
structural changes and leaves the state, ledger included, unchanged. -/
theorem C4_migrations_skip_and_idempotent :
    (∀ (applied : List String) (m : Migration) (rest : List Migration)
        (db : MigDb) (acc : List Ddl), applied.contains m.id = true →
        migLoop applied (m :: rest) db acc = migLoop applied rest db acc)
      ∧ (∀ (db db2 : MigDb) (ddl : List Ddl),
        run_database_migrations MIGRATIONS db = .ok (db2, ddl) →
        (∃ ext, db2.ledger = db.ledger ++ ext
            ∧ List.Sublist ext (MIGRATIONS.map Migration.id))
          ∧ run_database_migrations MIGRATIONS db2 = .ok (db2, [])) := by
  constructor
  · intro applied m rest db acc hc
    simp only [migLoop, hc, if_pos]
  · intro db db2 ddl h
    unfold run_database_migrations at h
    obtain ⟨ext, hl, hs, hlt, hmem⟩ := migLoop_ok_spec MIGRATIONS _ _ _ _ _ h
    have hlt2 : db2.ledgerTableExists = true := hlt
    have h2 : _ensure_migrations_table db2 = db2 := by
      cases db2 with
      | mk sch led lte =>
        cases hlt2
        rfl
    constructor
    · exact ⟨ext, hl, hs⟩
    · unfold run_database_migrations
      rw [h2]
      apply migLoop_skip_all
      intro mm hmm
      rcases hmem mm hmm with hA | hB
      · rw [hl]
        exact List.mem_append_left _ hA
      · exact hB

/-- Witness for C4: a run over a database with every declared id already in
the ledger. -/
theorem C4_migrations_witness :
    (∃ ext, appliedDb.ledger = appliedDb.ledger ++ ext
        ∧ List.Sublist ext (MIGRATIONS.map Migration.id))
      ∧ run_database_migrations MIGRATIONS appliedDb = .ok (appliedDb, []) :=
  C4_migrations_skip_and_idempotent.2 appliedDb appliedDb [] (by rfl)

/-- C5: when a migration's upgrade action fails mid-execution, its savepoint
discards that migration's partial changes (the error keeps the state reached
before it), no ledger row is inserted for it, the ledger rows of all
previously applied migrations survive, and the error propagates so the run
aborts at the failing migration — the remaining suffix is never visited. -/
theorem C5_failed_migration_aborts (applied : List String)
    (pre post : List Migration) (m : Migration) (db db1 : MigDb)
    (acc1 : List Ddl) (msg : String) (schemaLeft : Schema)
    (hpre : migLoop applied pre db [] = .ok (db1, acc1))
    (hskip : applied.contains m.id = false)
    (hfail : m.upgrade db1.schema = .error (msg, schemaLeft)) :
    migLoop applied (pre ++ m :: post) db [] = .error (msg, db1, acc1)
      ∧ (∃ ext, db1.ledger = db.ledger ++ ext
          ∧ List.Sublist ext (pre.map Migration.id))
      ∧ (m.id ∉ db.ledger → (∀ mm ∈ pre, mm.id ≠ m.id) → m.id ∉ db1.ledger) := by
  obtain ⟨ext, hl, hs, hlt, hmem⟩ := migLoop_ok_spec pre applied db [] db1 acc1 hpre
  refine ⟨?_, ⟨ext, hl, hs⟩, ?_⟩
  · rw [migLoop_append pre (m :: post) applied db [], hpre]
    simp only [migLoop, hskip, Bool.false_eq_true, if_false, hfail]
  · intro h1 h2 hmem2
    rw [hl] at hmem2
    rcases List.mem_append.mp hmem2 with h | h
    · exact h1 h
    · obtain ⟨mm, hmm, he⟩ := List.mem_map.mp (hs.subset h)
      exact h2 mm hmm he

/-- Witness for C5: migration 0001 succeeds on a fresh database, then
`boomMigration` fails; the run aborts with the post-0001 state, the partial
`junk` column discarded and no ledger row for the failing id. -/
theorem C5_failed_migration_witness :
    migLoop [] (MIGRATIONS.take 1 ++ boomMigration :: MIGRATIONS.drop 1)
        freshDb [] = .error ("boom", db1After0001, ddl0001)
      ∧ (∃ ext, db1After0001.ledger = freshDb.ledger ++ ext
          ∧ List.Sublist ext ((MIGRATIONS.take 1).map Migration.id))
      ∧ (boomMigration.id ∉ freshDb.ledger
          → (∀ mm ∈ MIGRATIONS.take 1, mm.id ≠ boomMigration.id)
          → boomMigration.id ∉ db1After0001.ledger) :=
  C5_failed_migration_aborts [] (MIGRATIONS.take 1) (MIGRATIONS.drop 1)
    boomMigration freshDb db1After0001 ddl0001 "boom"
    (execDdl db1After0001.schema (.addColumn "users" "junk"))
    (by rfl) (by rfl) (by rfl)

end RemnaShop
